import Mathlib

/-!
Verification of `pyrit/prompt_target/manual_chat_target.py` (`ManualChatTarget`):
a shallow embedding of the adapter that bridges a structured prompt request to
a human operator through a blocking input dialog, plus theorems settling the
specification's claims about it.

Modelling choices:
* Exceptions (`ValueError` from `_validate_request`, `EmptyResponseException`)
  become an `Except TargetError` result.
* The Tk dialog of `gui_input` is abstracted to the list of strings the human
  submitted before the window was destroyed (`on_submit` appends to `result`
  and closes the window, so the list the source inspects at the end holds the
  submissions); `gui_input` returns `result[0] if result else None`, i.e.
  `List.head?`.  A dismissed dialog contributes no submission.
* Side effects observable outside the call (reading the memory collaborator,
  appending the request to the local history list, showing the dialog) are
  recorded in an event trace, in the order the source performs them.
* `send_prompt_async` threads the instance through the call, returning the
  instance state the method leaves behind; the Python body never assigns to
  any attribute of `self`, so every branch returns `self` unchanged.
-/

namespace ManualChat

/-- A chat message, as produced for the conversation history
(role plus textual content). -/
structure ChatMessage where
  role : String
  content : String
deriving Repr, DecidableEq

/-- One unit of input content of a prompt request: a declared data type, a
converted (textual) value, a conversation identifier, an identifier of its
own and of the request piece it originated from. -/
structure PromptRequestPiece where
  id : String
  conversation_id : String
  role : String
  original_prompt_id : String
  converted_value : String
  converted_value_data_type : String
deriving Repr, DecidableEq

instance : Inhabited PromptRequestPiece :=
  ⟨{ id := ""
     conversation_id := ""
     role := ""
     original_prompt_id := ""
     converted_value := ""
     converted_value_data_type := "" }⟩

/-- A prompt request (or response) envelope: an ordered collection of
request pieces. -/
structure PromptRequestResponse where
  request_pieces : List PromptRequestPiece
deriving Repr, DecidableEq

/-- Modelled from the spec: `PromptRequestPiece.to_chat_message` lives in
`pyrit.models`, outside the provided source.  Per the glossary it converts a
piece to its canonical chat-message form (role plus textual content). -/
def PromptRequestPiece.to_chat_message (p : PromptRequestPiece) : ChatMessage :=
  { role := p.role, content := p.converted_value }

/-- Modelled from the spec: `construct_response_from_request` lives in
`pyrit.models`, outside the provided source.  Per the spec the response
envelope is "constructed fresh per call from the original request plus a list
of response text pieces", each produced piece carrying the originating
request's identifier and conversation identifier and the `"text"` data
type. -/
def construct_response_from_request (request : PromptRequestPiece)
    (response_text_pieces : List String) : PromptRequestResponse :=
  { request_pieces := response_text_pieces.map fun t =>
      { id := ""
        conversation_id := request.conversation_id
        role := "assistant"
        original_prompt_id := request.id
        converted_value := t
        converted_value_data_type := "text" } }

/-- Modelled from the spec: the external memory collaborator
(`pyrit.memory.MemoryInterface`, outside the provided source), an ordered
sequence of chat messages keyed by conversation identifier. -/
structure MemoryInterface where
  entries : List (String × ChatMessage)
deriving Repr, DecidableEq

/-- Modelled from the spec: `get_chat_messages_with_conversation_id` returns
the ordered messages stored under the given conversation identifier. -/
def MemoryInterface.get_chat_messages_with_conversation_id
    (m : MemoryInterface) (conversation_id : String) : List ChatMessage :=
  (m.entries.filter fun e => e.1 = conversation_id).map Prod.snd

/-- The adapter instance: its own `chat_message_normalizer` field plus the
configuration inherited from `PromptChatTarget.__init__` (the memory
collaborator and the requests-per-minute cap). -/
structure ManualChatTarget where
  chat_message_normalizer : ChatMessage → ChatMessage
  _memory : MemoryInterface
  _max_requests_per_minute : Option Nat

/-- The failures `send_prompt_async` can raise: `ValueError` from
`_validate_request` (invalid request) and `EmptyResponseException`. -/
inductive TargetError where
  | invalidRequest (message : String)
  | emptyResponse (message : String)
deriving Repr, DecidableEq

/-- Externally observable steps of one `send_prompt_async` call, in order:
reading the memory collaborator, appending the incoming message to the local
history list, and creating the human-facing dialog session. -/
inductive Event where
  | memoryRead (conversation_id : String) (result : List ChatMessage)
  | localAppend (messages : List ChatMessage)
  | dialogShown (prompt : String)
deriving Repr, DecidableEq

/-- Embedding of `ManualChatTarget._validate_request`: raises `ValueError`
unless the request has exactly one piece whose
`converted_value_data_type` is `"text"`. -/
def _validate_request (prompt_request : PromptRequestResponse) :
    Except TargetError Unit :=
  if prompt_request.request_pieces.length ≠ 1 then
    Except.error (TargetError.invalidRequest
      "This target only supports a single prompt request piece.")
  else if prompt_request.request_pieces.headI.converted_value_data_type ≠ "text" then
    Except.error (TargetError.invalidRequest
      "This target only supports text prompt input.")
  else
    Except.ok ()

/-- Embedding of `ManualChatTarget.gui_input`: given the submissions the
human made before the window was destroyed (a dismissed dialog yields the
empty list), the source returns `result[0] if result else None`. -/
def gui_input (result : List String) : Option String :=
  result.head?

/-- Embedding of `ManualChatTarget.send_prompt_async`.  Inputs: the instance,
the human's dialog submissions, and the prompt request.  Output: the instance
state after the call, the result (`Except` in place of raised exceptions),
and the trace of observable events in source order. -/
def send_prompt_async (self : ManualChatTarget) (submissions : List String)
    (prompt_request : PromptRequestResponse) :
    ManualChatTarget × Except TargetError PromptRequestResponse × List Event :=
  match _validate_request prompt_request with
  | Except.error e => (self, Except.error e, [])
  | Except.ok _ =>
    let request := prompt_request.request_pieces.headI
    let prior :=
      self._memory.get_chat_messages_with_conversation_id request.conversation_id
    let messages := prior ++ [request.to_chat_message]
    let events := [Event.memoryRead request.conversation_id prior,
                   Event.localAppend messages,
                   Event.dialogShown request.converted_value]
    match gui_input submissions with
    | none =>
      (self, Except.error (TargetError.emptyResponse
        "The chat returned an empty response."), events)
    | some resp_text =>
      if resp_text = "" then
        (self, Except.error (TargetError.emptyResponse
          "The chat returned an empty response."), events)
      else
        (self, Except.ok (construct_response_from_request request [resp_text]),
          events)

/-- A sample text request piece, used to instantiate hypotheses of the
theorems below at concrete inputs. -/
def samplePiece : PromptRequestPiece :=
  { id := "req-1"
    conversation_id := "c1"
    role := "user"
    original_prompt_id := "req-1"
    converted_value := "hello"
    converted_value_data_type := "text" }

/-- A sample adapter instance with an empty memory store. -/
def sampleTarget : ManualChatTarget :=
  { chat_message_normalizer := id
    _memory := { entries := [] }
    _max_requests_per_minute := none }

/-- A sample text request piece whose prompt text is the empty string. -/
def emptyPromptPiece : PromptRequestPiece :=
  { id := "req-2"
    conversation_id := "c1"
    role := "user"
    original_prompt_id := "req-2"
    converted_value := ""
    converted_value_data_type := "text" }

/-- Helper: when validation fails, `send_prompt_async` returns that error,
leaves the instance untouched and performs no observable step. -/
theorem send_prompt_async_validate_error (self : ManualChatTarget)
    (submissions : List String) (pr : PromptRequestResponse) (e : TargetError)
    (h : _validate_request pr = Except.error e) :
    send_prompt_async self submissions pr = (self, Except.error e, []) := by
  simp [send_prompt_async, h]

/-- Helper: a request whose piece count is not one fails validation with the
single-piece error message. -/
theorem validate_len_ne (pr : PromptRequestResponse)
    (h1 : pr.request_pieces.length ≠ 1) :
    _validate_request pr = Except.error (TargetError.invalidRequest
      "This target only supports a single prompt request piece.") := by
  simp [_validate_request, h1]

/-- Helper: a single-piece request whose piece is not of data type "text"
fails validation with the text-only error message. -/
theorem validate_type_ne (pr : PromptRequestResponse)
    (h1 : pr.request_pieces.length = 1)
    (h2 : pr.request_pieces.headI.converted_value_data_type ≠ "text") :
    _validate_request pr = Except.error (TargetError.invalidRequest
      "This target only supports text prompt input.") := by
  simp [_validate_request, h1, h2]

/-- Helper: validation succeeds exactly on single-piece requests whose sole
piece has data type "text". -/
theorem validate_ok_iff (pr : PromptRequestResponse) :
    _validate_request pr = Except.ok () ↔
      (pr.request_pieces.length = 1 ∧
        pr.request_pieces.headI.converted_value_data_type = "text") := by
  by_cases h1 : pr.request_pieces.length = 1
  · by_cases h2 : pr.request_pieces.headI.converted_value_data_type = "text"
    · simp [_validate_request, h1, h2]
    · simp [_validate_request, h1, h2]
  · simp [_validate_request, h1]

/-- C1: for every prompt request with exactly one request piece of data type
"text", if the human submits a non-empty string t in the dialog,
`send_prompt_async` returns a response envelope containing exactly one
response piece whose value equals t. -/
theorem send_prompt_async_single_text_submission (self : ManualChatTarget)
    (p : PromptRequestPiece) (t : String)
    (hT : p.converted_value_data_type = "text") (ht : t ≠ "") :
    ∃ r, (send_prompt_async self [t] { request_pieces := [p] }).2.1 =
        Except.ok r ∧
      ∃ q, r.request_pieces = [q] ∧ q.converted_value = t := by
  refine ⟨construct_response_from_request p [t], ?_, ⟨_, rfl, rfl⟩⟩
  simp [send_prompt_async, _validate_request, gui_input, hT, ht]

/-- Witness for C1 at a concrete input: the sample request with the human
submitting "world". -/
theorem send_prompt_async_single_text_submission_witness :
    ∃ r, (send_prompt_async sampleTarget ["world"]
        { request_pieces := [samplePiece] }).2.1 = Except.ok r ∧
      ∃ q, r.request_pieces = [q] ∧ q.converted_value = "world" :=
  send_prompt_async_single_text_submission sampleTarget samplePiece "world"
    rfl (by decide)

/-- C2: `send_prompt_async` fails with an invalid-request error exactly when
the number of request pieces is not one or the sole piece's data type is not
"text"; and unless validation succeeds, the call has no observable side
effect (its event trace is empty). -/
theorem send_prompt_async_invalid_request_iff (self : ManualChatTarget)
    (submissions : List String) (pr : PromptRequestResponse) :
    ((∃ m, (send_prompt_async self submissions pr).2.1 =
        Except.error (TargetError.invalidRequest m)) ↔
      (pr.request_pieces.length ≠ 1 ∨
        pr.request_pieces.headI.converted_value_data_type ≠ "text")) ∧
    (_validate_request pr = Except.ok () ∨
      (send_prompt_async self submissions pr).2.2 = []) := by
  by_cases h1 : pr.request_pieces.length = 1
  · by_cases h2 : pr.request_pieces.headI.converted_value_data_type = "text"
    · refine ⟨?_, Or.inl ((validate_ok_iff pr).mpr ⟨h1, h2⟩)⟩
      simp only [h1, h2, ne_eq, not_true_eq_false, or_self, iff_false,
        not_exists]
      intro m
      cases hg : submissions.head? with
      | none => simp [send_prompt_async, _validate_request, gui_input, h1, h2, hg]
      | some t =>
        by_cases htt : t = "" <;>
          simp [send_prompt_async, _validate_request, gui_input, h1, h2, hg, htt]
    · have he : _validate_request pr = Except.error (TargetError.invalidRequest
          "This target only supports text prompt input.") := by
        simp [_validate_request, h1, h2]
      rw [send_prompt_async_validate_error self submissions pr _ he]
      simp [h2]
  · have he : _validate_request pr = Except.error (TargetError.invalidRequest
        "This target only supports a single prompt request piece.") := by
      simp [_validate_request, h1]
    rw [send_prompt_async_validate_error self submissions pr _ he]
    simp [h1]

/-- C3: for a valid single-text-piece request, `send_prompt_async` fails
with an empty-response error exactly when the dialog result is empty or
absent (the human submitted the empty string, or submitted nothing at all);
a dismissed dialog (no submissions) yields the absent result. -/
theorem send_prompt_async_empty_response_iff (self : ManualChatTarget)
    (submissions : List String) (p : PromptRequestPiece)
    (hT : p.converted_value_data_type = "text") :
    ((∃ m, (send_prompt_async self submissions
          { request_pieces := [p] }).2.1 =
        Except.error (TargetError.emptyResponse m)) ↔
      (gui_input submissions = none ∨ gui_input submissions = some "")) ∧
    gui_input [] = none := by
  refine ⟨?_, rfl⟩
  cases hg : submissions.head? with
  | none => simp [send_prompt_async, _validate_request, gui_input, hT, hg]
  | some t =>
    by_cases htt : t = "" <;>
      simp [send_prompt_async, _validate_request, gui_input, hT, hg, htt]

/-- Witness for C3 at a concrete input: the sample request with the human
submitting the empty string. -/
theorem send_prompt_async_empty_response_iff_witness :
    (∃ m, (send_prompt_async sampleTarget [""]
          { request_pieces := [samplePiece] }).2.1 =
        Except.error (TargetError.emptyResponse m)) ∧
    gui_input [] = none :=
  ⟨(send_prompt_async_empty_response_iff sampleTarget [""] samplePiece
      rfl).1.mpr (Or.inr rfl),
   (send_prompt_async_empty_response_iff sampleTarget [""] samplePiece
      rfl).2⟩

/-- C4: for every request that fails validation (piece count not one, or
data type not "text"), `send_prompt_async` raises the invalid-request error
with an empty event trace: no dialog session (and no other observable step)
is ever created. -/
theorem validate_error_no_dialog (self : ManualChatTarget)
    (submissions : List String) (pr : PromptRequestResponse)
    (h : pr.request_pieces.length ≠ 1 ∨
      pr.request_pieces.headI.converted_value_data_type ≠ "text") :
    (∃ m, (send_prompt_async self submissions pr).2.1 =
        Except.error (TargetError.invalidRequest m)) ∧
    (send_prompt_async self submissions pr).2.2 = [] := by
  have hv : ∃ m, _validate_request pr =
      Except.error (TargetError.invalidRequest m) := by
    rcases h with h1 | h2
    · exact ⟨_, validate_len_ne pr h1⟩
    · by_cases h1 : pr.request_pieces.length = 1
      · exact ⟨_, validate_type_ne pr h1 h2⟩
      · exact ⟨_, validate_len_ne pr h1⟩
  obtain ⟨m, hm⟩ := hv
  rw [send_prompt_async_validate_error self submissions pr _ hm]
  exact ⟨⟨m, rfl⟩, rfl⟩

/-- Witness for C4 at a concrete input: a request with no pieces. -/
theorem validate_error_no_dialog_witness :
    (∃ m, (send_prompt_async sampleTarget ["world"]
        { request_pieces := [] }).2.1 =
      Except.error (TargetError.invalidRequest m)) ∧
    (send_prompt_async sampleTarget ["world"]
      { request_pieces := [] }).2.2 = [] :=
  validate_error_no_dialog sampleTarget ["world"] { request_pieces := [] }
    (Or.inl (by decide))

/-- C5: on every successful call, the trace records reading the prior
messages for the request's conversation identifier from the memory
collaborator and then appending the incoming piece's chat-message form to
that sequence. -/
theorem send_prompt_async_success_history (self : ManualChatTarget)
    (submissions : List String) (pr : PromptRequestResponse)
    (r : PromptRequestResponse)
    (h : (send_prompt_async self submissions pr).2.1 = Except.ok r) :
    Event.memoryRead pr.request_pieces.headI.conversation_id
        (self._memory.get_chat_messages_with_conversation_id
          pr.request_pieces.headI.conversation_id) ∈
      (send_prompt_async self submissions pr).2.2 ∧
    Event.localAppend
        (self._memory.get_chat_messages_with_conversation_id
            pr.request_pieces.headI.conversation_id ++
          [pr.request_pieces.headI.to_chat_message]) ∈
      (send_prompt_async self submissions pr).2.2 := by
  by_cases h1 : pr.request_pieces.length = 1
  · by_cases h2 : pr.request_pieces.headI.converted_value_data_type = "text"
    · cases hg : submissions.head? with
      | none =>
        simp [send_prompt_async, _validate_request, gui_input, h1, h2, hg] at h
      | some t =>
        by_cases htt : t = ""
        · simp [send_prompt_async, _validate_request, gui_input, h1, h2, hg,
            htt] at h
        · simp [send_prompt_async, _validate_request, gui_input, h1, h2, hg,
            htt]
    · rw [send_prompt_async_validate_error self submissions pr _
        (validate_type_ne pr h1 h2)] at h
      exact absurd h (by simp)
  · rw [send_prompt_async_validate_error self submissions pr _
      (validate_len_ne pr h1)] at h
    exact absurd h (by simp)

/-- Witness for C5 at a concrete input: the sample request with the human
submitting "world". -/
theorem send_prompt_async_success_history_witness :
    Event.memoryRead "c1"
        (sampleTarget._memory.get_chat_messages_with_conversation_id "c1") ∈
      (send_prompt_async sampleTarget ["world"]
        { request_pieces := [samplePiece] }).2.2 ∧
    Event.localAppend
        (sampleTarget._memory.get_chat_messages_with_conversation_id "c1" ++
          [samplePiece.to_chat_message]) ∈
      (send_prompt_async sampleTarget ["world"]
        { request_pieces := [samplePiece] }).2.2 :=
  send_prompt_async_success_history sampleTarget ["world"]
    { request_pieces := [samplePiece] }
    (construct_response_from_request samplePiece ["world"]) rfl

/-- C6: on every successful call, each piece of the returned response
carries the input request piece's identifier as its originating request
identifier and the input's conversation identifier. -/
theorem send_prompt_async_response_ids (self : ManualChatTarget)
    (submissions : List String) (pr : PromptRequestResponse)
    (r : PromptRequestResponse)
    (h : (send_prompt_async self submissions pr).2.1 = Except.ok r) :
    ∀ q ∈ r.request_pieces,
      q.original_prompt_id = pr.request_pieces.headI.id ∧
      q.conversation_id = pr.request_pieces.headI.conversation_id := by
  by_cases h1 : pr.request_pieces.length = 1
  · by_cases h2 : pr.request_pieces.headI.converted_value_data_type = "text"
    · cases hg : submissions.head? with
      | none =>
        simp [send_prompt_async, _validate_request, gui_input, h1, h2, hg] at h
      | some t =>
        by_cases htt : t = ""
        · simp [send_prompt_async, _validate_request, gui_input, h1, h2, hg,
            htt] at h
        · simp [send_prompt_async, _validate_request, gui_input, h1, h2, hg,
            htt] at h
          subst h
          intro q hq
          simp [construct_response_from_request] at hq
          subst hq
          exact ⟨rfl, rfl⟩
    · rw [send_prompt_async_validate_error self submissions pr _
        (validate_type_ne pr h1 h2)] at h
      exact absurd h (by simp)
  · rw [send_prompt_async_validate_error self submissions pr _
      (validate_len_ne pr h1)] at h
    exact absurd h (by simp)

/-- Witness for C6 at a concrete input: the sample request with the human
submitting "world". -/
theorem send_prompt_async_response_ids_witness :
    (construct_response_from_request samplePiece
        ["world"]).request_pieces.headI.original_prompt_id = samplePiece.id ∧
    (construct_response_from_request samplePiece
        ["world"]).request_pieces.headI.conversation_id =
      samplePiece.conversation_id :=
  send_prompt_async_response_ids sampleTarget ["world"]
    { request_pieces := [samplePiece] }
    (construct_response_from_request samplePiece ["world"]) rfl
    (construct_response_from_request samplePiece ["world"]).request_pieces.headI
    (by simp [construct_response_from_request])

/-- C7: every call to `send_prompt_async` either returns a complete response
containing exactly one text piece, or fails with an error; never a partial
or multi-piece response. -/
theorem send_prompt_async_total (self : ManualChatTarget)
    (submissions : List String) (pr : PromptRequestResponse) :
    (∃ r, (send_prompt_async self submissions pr).2.1 = Except.ok r ∧
      ∃ q, r.request_pieces = [q] ∧ q.converted_value_data_type = "text") ∨
    (∃ e, (send_prompt_async self submissions pr).2.1 = Except.error e) := by
  by_cases h1 : pr.request_pieces.length = 1
  · by_cases h2 : pr.request_pieces.headI.converted_value_data_type = "text"
    · cases hg : submissions.head? with
      | none =>
        refine Or.inr ⟨TargetError.emptyResponse
          "The chat returned an empty response.", ?_⟩
        simp [send_prompt_async, _validate_request, gui_input, h1, h2, hg]
      | some t =>
        by_cases htt : t = ""
        · refine Or.inr ⟨TargetError.emptyResponse
            "The chat returned an empty response.", ?_⟩
          simp [send_prompt_async, _validate_request, gui_input, h1, h2,
            hg, htt]
        · refine Or.inl ⟨construct_response_from_request
            pr.request_pieces.headI [t], ?_, ⟨_, rfl, rfl⟩⟩
          simp [send_prompt_async, _validate_request, gui_input, h1, h2,
            hg, htt]
    · refine Or.inr ⟨TargetError.invalidRequest
        "This target only supports text prompt input.", ?_⟩
      rw [send_prompt_async_validate_error self submissions pr _
        (validate_type_ne pr h1 h2)]
  · refine Or.inr ⟨TargetError.invalidRequest
      "This target only supports a single prompt request piece.", ?_⟩
    rw [send_prompt_async_validate_error self submissions pr _
      (validate_len_ne pr h1)]

/-- Helper for C9: one call returns the instance unchanged. -/
theorem send_prompt_async_fst (self : ManualChatTarget)
    (submissions : List String) (pr : PromptRequestResponse) :
    (send_prompt_async self submissions pr).1 = self := by
  by_cases h1 : pr.request_pieces.length = 1
  · by_cases h2 : pr.request_pieces.headI.converted_value_data_type = "text"
    · cases hg : submissions.head? with
      | none =>
        simp [send_prompt_async, _validate_request, gui_input, h1, h2, hg]
      | some t =>
        by_cases htt : t = "" <;>
          simp [send_prompt_async, _validate_request, gui_input, h1, h2,
            hg, htt]
    · rw [send_prompt_async_validate_error self submissions pr _
        (validate_type_ne pr h1 h2)]
  · rw [send_prompt_async_validate_error self submissions pr _
      (validate_len_ne pr h1)]

/-- C9: no sequence of calls mutates any instance field of the adapter: the
instance state threaded through any list of calls is the original one, so
the operation holds no cross-call state and is safely re-invocable. -/
theorem send_prompt_async_preserves_instance (self : ManualChatTarget)
    (calls : List (List String × PromptRequestResponse)) :
    calls.foldl (fun s c => (send_prompt_async s c.1 c.2).1) self = self := by
  induction calls generalizing self with
  | nil => rfl
  | cons c rest ih =>
    rw [List.foldl_cons, send_prompt_async_fst]
    exact ih self

/-- C10: validation never inspects the piece's converted value: any request
with exactly one piece of data type "text" passes validation — even with an
empty prompt text — and the call creates a dialog session showing that
converted value. -/
theorem validate_ignores_converted_value (self : ManualChatTarget)
    (submissions : List String) (p : PromptRequestPiece)
    (hT : p.converted_value_data_type = "text") :
    _validate_request { request_pieces := [p] } = Except.ok () ∧
    Event.dialogShown p.converted_value ∈
      (send_prompt_async self submissions { request_pieces := [p] }).2.2 := by
  refine ⟨by simp [_validate_request, hT], ?_⟩
  cases hg : submissions.head? with
  | none => simp [send_prompt_async, _validate_request, gui_input, hT, hg]
  | some t =>
    by_cases htt : t = "" <;>
      simp [send_prompt_async, _validate_request, gui_input, hT, hg, htt]

/-- Witness for C10 at a concrete input: a piece whose prompt text is the
empty string still passes validation and produces a dialog session. -/
theorem validate_ignores_converted_value_witness :
    _validate_request { request_pieces := [emptyPromptPiece] } =
      Except.ok () ∧
    Event.dialogShown "" ∈
      (send_prompt_async sampleTarget []
        { request_pieces := [emptyPromptPiece] }).2.2 :=
  validate_ignores_converted_value sampleTarget [] emptyPromptPiece rfl

end ManualChat
